import Mathlib

/-!
Verification of the pump-detection / strategy-backtesting core of the
`bot_x1` repository.  The Python source is shallowly embedded: each
Python function below is translated into a computable Lean definition
over `ℚ` (for floats), `ℤ` (for ints/timestamps) and association lists
(for dicts).  Theorems then settle the specification claims.
-/

/-! ## Basic Python-semantics helpers -/

/-- Python's `round` (banker's rounding, round-half-to-even) on a rational,
    returning an integer. -/
def pyRound (q : ℚ) : ℤ :=
  let f : ℤ := ⌊q⌋
  let frac : ℚ := q - f
  if frac < 1/2 then f
  else if 1/2 < frac then f + 1
  else if f % 2 = 0 then f else f + 1

/-- Python's `round(x, 2)` on a rational. -/
def pyRound2 (q : ℚ) : ℚ := (pyRound (q * 100) : ℚ) / 100

/-- Semantics of appending to a `collections.deque(maxlen=cap)`: append the
    element, evicting from the front when the capacity is exceeded. -/
def dequePush {α : Type} (cap : ℕ) (l : List α) (x : α) : List α :=
  if l.length < cap then l ++ [x] else (l.drop (l.length + 1 - cap)) ++ [x]

/-! ## Data model: candles -/

/-- One OHLCV candle, as parsed in `PumpDetector.on_candle_update`
    (`src/x1/bot/ai/pump_detector.py`). -/
structure Candle where
  timestamp : ℤ
  open_ : ℚ
  high : ℚ
  low : ℚ
  close : ℚ
  volume : ℚ
deriving DecidableEq, Repr

/-- Placeholder candle used for total list indexing (never observable:
    every access below is guarded by a length check, as in the source). -/
def dummyCandle : Candle := ⟨0, 0, 0, 0, 0, 0⟩

/-! ## PumpDetector: configuration and state -/

/-- `PumpDetector.config` (the literal dict in `PumpDetector.__init__`). -/
structure DetectorConfig where
  price_increase_1m : ℚ
  price_increase_5m : ℚ
  volume_spike_multiplier : ℚ
  min_volume_usdt : ℚ
  rsi_period : ℕ
  rsi_overbought : ℚ
  momentum_threshold : ℚ
  min_confidence : ℤ
  recent_pump_price_threshold : ℚ
  recent_pump_volume_threshold : ℚ
deriving DecidableEq, Repr

/-- The default configuration values from `PumpDetector.__init__`. -/
def default_config : DetectorConfig where
  price_increase_1m := 3
  price_increase_5m := 8
  volume_spike_multiplier := 3
  min_volume_usdt := 50000
  rsi_period := 14
  rsi_overbought := 70
  momentum_threshold := 2
  min_confidence := 70
  recent_pump_price_threshold := 5
  recent_pump_volume_threshold := 3

/-- `self.pump_cooldown_seconds = 600` in `PumpDetector.__init__`. -/
def pump_cooldown_seconds : ℚ := 600

/-- `self.pump_lookback_candles = 20` in `PumpDetector.__init__`. -/
def pump_lookback_candles : ℕ := 20

/-- The mutable state of a `PumpDetector`: the per-`(symbol, interval)`
    rolling candle history (a dict of `deque(maxlen=100)`) and the
    `recent_pumps` dict mapping a symbol to the wall-clock time of its last
    detected pump. Dicts are modelled as association lists where the most
    recent binding shadows older ones. -/
structure DetectorState where
  candle_history : List ((String × String) × List Candle)
  recent_pumps : List (String × ℚ)
deriving DecidableEq, Repr

/-- Read a symbol/interval's rolling history (missing key = empty deque,
    matching the `defaultdict` in the source). -/
def histOf (st : DetectorState) (symbol interval : String) : List Candle :=
  (st.candle_history.lookup (symbol, interval)).getD []

/-- Write a symbol/interval's rolling history (dict assignment). -/
def histSet (st : DetectorState) (symbol interval : String) (h : List Candle) :
    DetectorState :=
  { st with candle_history := ((symbol, interval), h) :: st.candle_history }

/-- `self.recent_pumps[symbol] = now` (dict assignment; we keep only the
    wall-clock timestamp, which is the only field the logic reads). -/
def rpSet (st : DetectorState) (symbol : String) (now : ℚ) : DetectorState :=
  { st with recent_pumps := (symbol, now) :: st.recent_pumps }

/-! ## PumpDetector: indicator calculations -/

/-- `PumpDetector.calculate_price_change_realtime`. -/
def calculate_price_change_realtime (candles : List Candle) (periods : ℕ) : ℚ :=
  if candles.length < periods + 1 then 0
  else
    let old_price := (candles.getD (candles.length - (periods + 1)) dummyCandle).close
    let new_price := (candles.getD (candles.length - 1) dummyCandle).close
    if old_price = 0 then 0
    else ((new_price - old_price) / old_price) * 100

/-- Mean volume of `candles[-20:-1]`, the prior (closed) candles used by
    `calculate_volume_spike_realtime`. -/
def priorVolumeMean (candles : List Candle) : ℚ :=
  let prior := ((candles.drop (candles.length - 20)).dropLast).map Candle.volume
  prior.sum / prior.length

/-- `PumpDetector.calculate_volume_spike_realtime` (`now` is `time.time()`). -/
def calculate_volume_spike_realtime (candles : List Candle) (now : ℚ) : ℚ :=
  if candles.length < 10 then 1
  else
    let current_candle := candles.getLastD dummyCandle
    let elapsed_seconds := now - (current_candle.timestamp : ℚ)
    let time_ratio := if 0 < elapsed_seconds then elapsed_seconds / 60 else 1
    let time_ratio := min time_ratio 1
    let normalized_current_volume :=
      if 1/10 < time_ratio then current_candle.volume / time_ratio
      else current_candle.volume
    let avg_volume := priorVolumeMean candles
    if avg_volume = 0 then 1
    else normalized_current_volume / avg_volume

/-- Mean of the loss components of the last 14 close-to-close deltas, the
    `avg_loss` of `PumpDetector.calculate_rsi`. -/
def rsiAvgLoss (candles : List Candle) : ℚ :=
  let prices := (candles.drop (candles.length - 15)).map Candle.close
  let deltas := (prices.zip prices.tail).map (fun p => p.2 - p.1)
  let losses := deltas.map (fun d => if d < 0 then -d else 0)
  losses.sum / losses.length

/-- Mean of the gain components of the last 14 close-to-close deltas, the
    `avg_gain` of `PumpDetector.calculate_rsi`. -/
def rsiAvgGain (candles : List Candle) : ℚ :=
  let prices := (candles.drop (candles.length - 15)).map Candle.close
  let deltas := (prices.zip prices.tail).map (fun p => p.2 - p.1)
  let gains := deltas.map (fun d => if 0 < d then d else 0)
  gains.sum / gains.length

/-- `PumpDetector.calculate_rsi` with the default `period=14`
    (`None` when fewer than 15 candles are buffered). -/
def calculate_rsi (candles : List Candle) : Option ℚ :=
  if candles.length < 14 + 1 then none
  else
    let avg_gain := rsiAvgGain candles
    let avg_loss := rsiAvgLoss candles
    if avg_loss = 0 then some 100
    else
      let rs := avg_gain / avg_loss
      some (100 - 100 / (1 + rs))

/-- `PumpDetector.calculate_momentum`. -/
def calculate_momentum (candles : List Candle) : ℚ :=
  if candles.length < 5 then 0
  else
    let n := candles.length
    let recent_change :=
      (candles.getD (n - 1) dummyCandle).close - (candles.getD (n - 3) dummyCandle).close
    let previous_change :=
      (candles.getD (n - 3) dummyCandle).close - (candles.getD (n - 5) dummyCandle).close
    if previous_change = 0 then 0
    else recent_change / |previous_change|

/-- `PumpDetector.calculate_buy_pressure` (% of green candles in the last 10). -/
def calculate_buy_pressure (candles : List Candle) : ℚ :=
  if candles.length < 10 then 0
  else
    let recent_candles := candles.drop (candles.length - 10)
    let green_candles := recent_candles.countP (fun c => decide (c.open_ < c.close))
    ((green_candles : ℚ) / recent_candles.length) * 100

/-- `PumpDetector.calculate_confidence`: weighted component scores summed,
    then `min(100, round(confidence))`. -/
def calculate_confidence (cfg : DetectorConfig) (price_1m price_5m volume_ratio : ℚ)
    (rsi : Option ℚ) (momentum buy_pressure : ℚ) : ℤ :=
  let price_score := min 30 ((price_1m / cfg.price_increase_1m) * 15)
  let price_score :=
    if cfg.price_increase_5m ≤ price_5m then price_score + 15 else price_score
  let volume_score := min 25 ((volume_ratio / cfg.volume_spike_multiplier) * 25)
  let rsi_score : ℚ :=
    match rsi with
    | none => 0
    | some r =>
      if r ≠ 0 ∧ cfg.rsi_overbought ≤ r then 15
      else if r ≠ 0 ∧ 60 ≤ r then 10 else 0
  let momentum_score : ℚ :=
    if cfg.momentum_threshold ≤ momentum then 15
    else if 1 ≤ momentum then 10 else 0
  let bp_score : ℚ := if 80 ≤ buy_pressure then 15
    else if 60 ≤ buy_pressure then 10 else 0
  let confidence := price_score + volume_score + rsi_score + momentum_score + bp_score
  min 100 (pyRound confidence)

/-! ## PumpDetector: dedup, cooldown and the realtime analysis pipeline -/

/-- `PumpDetector.is_in_cooldown`: a symbol is in cooldown while less than
    `pump_cooldown_seconds` have elapsed since its last recorded pump. -/
def is_in_cooldown (st : DetectorState) (symbol : String) (now : ℚ) : Bool :=
  match st.recent_pumps.lookup symbol with
  | none => false
  | some t => decide (now - t < pump_cooldown_seconds)

/-- `PumpDetector.has_recent_pump`: scan the last 20 closed candles for an
    adjacent pair with a strong price change and (when 10 prior candles are
    available) a strong volume ratio. -/
def has_recent_pump (cfg : DetectorConfig) (candles : List Candle) : Bool :=
  if candles.length < pump_lookback_candles + 1 then false
  else
    let recent_candles :=
      ((candles.drop (candles.length - (pump_lookback_candles + 1)))).dropLast
    (List.range recent_candles.length).any fun i =>
      if i = 0 then false
      else
        let candle := recent_candles.getD i dummyCandle
        let prev_candle := recent_candles.getD (i - 1) dummyCandle
        let price_change := ((candle.close - prev_candle.close) / prev_candle.close) * 100
        let volume_ratio : ℚ :=
          if 10 ≤ i then
            let window := ((recent_candles.drop (i - 10)).take 10).map Candle.volume
            let avg_volume := window.sum / window.length
            if 0 < avg_volume then candle.volume / avg_volume else 1
          else 1
        decide (cfg.recent_pump_price_threshold ≤ price_change ∧
                cfg.recent_pump_volume_threshold ≤ volume_ratio)

/-- A pump signal, as the dict assembled in
    `PumpDetector.analyze_pump_realtime` (display fields rounded to two
    decimals, like the source). -/
structure PumpSignal where
  symbol : String
  candle_timestamp : ℤ
  price : ℚ
  price_change_1m : ℚ
  price_change_5m : ℚ
  volume_ratio : ℚ
  volume_usdt : ℚ
  rsi : Option ℚ
  momentum : ℚ
  buy_pressure : ℚ
  confidence : ℤ
  is_new_candle : Bool
deriving DecidableEq, Repr

/-- `PumpDetector.analyze_pump_realtime`: the realtime pump analysis for one
    symbol at wall-clock time `now`.  Returns the updated detector state and
    the emitted signal, if any. -/
def analyze_pump_realtime (cfg : DetectorConfig) (st : DetectorState)
    (symbol : String) (now : ℚ) (is_new_candle : Bool) :
    DetectorState × Option PumpSignal :=
  if is_in_cooldown st symbol now then (st, none)
  else if has_recent_pump cfg (histOf st symbol "Min1") then (st, none)
  else
    let candles_1m := histOf st symbol "Min1"
    let candles_5m := histOf st symbol "Min5"
    if candles_1m.length < 20 then (st, none)
    else
      let current_candle := candles_1m.getLastD dummyCandle
      let price_change_1m := calculate_price_change_realtime candles_1m 1
      let price_change_5m :=
        if 5 ≤ candles_5m.length then calculate_price_change_realtime candles_5m 5 else 0
      let volume_ratio := calculate_volume_spike_realtime candles_1m now
      let current_volume_usdt := current_candle.volume * current_candle.close
      let rsi := calculate_rsi candles_1m
      let momentum := calculate_momentum candles_1m
      let buy_pressure := calculate_buy_pressure candles_1m
      let is_pump :=
        cfg.price_increase_1m ≤ price_change_1m ∧
        cfg.volume_spike_multiplier ≤ volume_ratio ∧
        cfg.min_volume_usdt ≤ current_volume_usdt
      if is_pump then
        let confidence :=
          calculate_confidence cfg price_change_1m price_change_5m volume_ratio
            rsi momentum buy_pressure
        if cfg.min_confidence ≤ confidence then
          let pump_signal : PumpSignal :=
            { symbol := symbol
              candle_timestamp := current_candle.timestamp
              price := current_candle.close
              price_change_1m := pyRound2 price_change_1m
              price_change_5m := pyRound2 price_change_5m
              volume_ratio := pyRound2 volume_ratio
              volume_usdt := pyRound2 current_volume_usdt
              rsi := match rsi with
                | some r => if r ≠ 0 then some (pyRound2 r) else none
                | none => none
              momentum := pyRound2 momentum
              buy_pressure := pyRound2 buy_pressure
              confidence := confidence
              is_new_candle := is_new_candle }
          (rpSet st symbol now, some pump_signal)
        else (st, none)
      else (st, none)

/-- `PumpDetector.on_candle_update`: parse/append/replace/discard the tick
    for `(symbol, interval)`, then (for `"Min1"`) run the realtime pump
    analysis.  Returns the updated state and the emitted signal, if any. -/
def on_candle_update (cfg : DetectorConfig) (st : DetectorState)
    (symbol interval : String) (candle : Candle) (now : ℚ) :
    DetectorState × Option PumpSignal :=
  let history := histOf st symbol interval
  if history.length = 0 then
    (histSet st symbol interval (dequePush 100 history candle), none)
  else
    let last_candle := history.getLastD dummyCandle
    if last_candle.timestamp < candle.timestamp then
      let st' := histSet st symbol interval (dequePush 100 history candle)
      if interval = "Min1" then analyze_pump_realtime cfg st' symbol now true
      else (st', none)
    else if candle.timestamp = last_candle.timestamp then
      let st' := histSet st symbol interval (history.dropLast ++ [candle])
      if interval = "Min1" then analyze_pump_realtime cfg st' symbol now false
      else (st', none)
    else (st, none)

/-- A candle tick as delivered to `PumpDetector.on_candle_update`, tagged
    with the wall-clock time at which it is processed. -/
structure TickEvent where
  symbol : String
  interval : String
  candle : Candle
  now : ℚ
deriving DecidableEq, Repr

/-- Process a sequence of candle ticks through the detector, collecting
    every emitted pump signal. -/
def process_events (cfg : DetectorConfig) (st : DetectorState) :
    List TickEvent → DetectorState × List PumpSignal
  | [] => (st, [])
  | e :: rest =>
    let r := on_candle_update cfg st e.symbol e.interval e.candle e.now
    let r' := process_events cfg r.1 rest
    (r'.1, r.2.toList ++ r'.2)

/-- The candle-buffer update of `StrategyManager.on_candle_update`
    (`src/x1/bot/ai/strategy_manager.py`): append on a new timestamp (then
    trim the front past 100), replace in place on an equal timestamp, ignore
    an older timestamp. -/
def sm_update_buffer (history : List Candle) (candle : Candle) : List Candle :=
  if history.length = 0 ∨ (history.getLastD dummyCandle).timestamp < candle.timestamp then
    let h := history ++ [candle]
    if 100 < h.length then h.drop 1 else h
  else if candle.timestamp = (history.getLastD dummyCandle).timestamp then
    history.dropLast ++ [candle]
  else history

/-! ## TradingStrategy / TradingBot: data model -/

/-- Trade direction (`DirectionEnum` / the `'direction'` config value). -/
inductive Direction where
  | LONG
  | SHORT
deriving DecidableEq, Repr

/-- A strategy configuration (the per-strategy config dict of
    `TradingStrategy` and the equivalent attributes of `TradingBot`).
    Optional dict keys read with `.get(key, default)` are modelled as plain
    fields holding the effective (defaulted) value. -/
structure StratConfig where
  direction : Direction
  take_profit : ℚ
  stop_loss : ℚ
  price_increase_threshold : ℚ
  volume_multiplier : ℚ
  rsi_threshold : ℚ
  min_confidence : ℚ
  timeframe : String
  position_size_usdt : ℚ
  min_trend_strength : ℚ
  require_breakout : Bool
  min_volume_consistency : ℚ
  trailing_stop : Bool
  reduce : ℚ
deriving DecidableEq, Repr

/-- The fields of a signal dict that `should_enter` reads.  Keys read via
    `.get(key, default)` that may be absent from detector-produced signals
    keep their `Option` shape (`timeframe` defaults to `'1m'`, `rsi` to
    `None`); numeric keys defaulting to `0` and `is_breakout` defaulting to
    `False` are modelled as the effective values. -/
structure EntrySignal where
  timeframe : Option String
  price_change_1m : ℚ
  price_change_5m : ℚ
  volume_ratio : ℚ
  rsi : Option ℚ
  confidence : ℚ
  trend_strength : ℚ
  is_breakout : Bool
  volume_consistency : ℚ
deriving DecidableEq, Repr

/-- An open position (`TradingStrategy.active_positions[symbol]`). -/
structure Position where
  direction : Direction
  entry_price : ℚ
  quantity : ℚ
  take_profit : ℚ
  stop_loss : ℚ
  highest_price : ℚ
  lowest_price : ℚ
deriving DecidableEq, Repr

/-- The mutable accounting state of a `TradingStrategy`: the stats counters,
    balance tracking and the realized PnL of each recorded trade. -/
structure StrategyState where
  total_trades : ℕ
  winning_trades : ℕ
  losing_trades : ℕ
  total_pnl : ℚ
  total_pnl_percent : ℚ
  current_balance : ℚ
  peak_balance : ℚ
  trade_pnls : List ℚ
deriving DecidableEq, Repr

/-! ## TradingStrategy: entry, exit, close, stats -/

/-- `TradingStrategy.should_enter` (`src/x1/bot/ai/trading_strategy.py`):
    the chain of early-return filters on a pump signal. -/
def should_enter (cfg : StratConfig) (s : EntrySignal) : Bool :=
  if s.timeframe.getD "1m" ≠ cfg.timeframe then false
  else
    let price_change :=
      if cfg.timeframe = "1m" then s.price_change_1m else s.price_change_5m
    if price_change < cfg.price_increase_threshold then false
    else if s.volume_ratio < cfg.volume_multiplier then false
    else if (match s.rsi with
             | some r => decide (r < cfg.rsi_threshold)
             | none => false) then false
    else if s.confidence < cfg.min_confidence then false
    else if 0 < cfg.min_trend_strength ∧ s.trend_strength < cfg.min_trend_strength then
      false
    else if cfg.require_breakout ∧ ¬s.is_breakout then false
    else if 0 < cfg.min_volume_consistency ∧
            s.volume_consistency < cfg.min_volume_consistency then false
    else true

/-- `TradingBot.should_enter` (`src/x1/bot/trading/trading_bot.py`): the
    same filter chain over the bot's own config attributes. -/
def bot_should_enter (cfg : StratConfig) (s : EntrySignal) : Bool :=
  if s.timeframe.getD "1m" ≠ cfg.timeframe then false
  else
    let price_change :=
      if cfg.timeframe = "1m" then s.price_change_1m else s.price_change_5m
    if price_change < cfg.price_increase_threshold then false
    else if s.volume_ratio < cfg.volume_multiplier then false
    else if (match s.rsi with
             | some r => decide (r < cfg.rsi_threshold)
             | none => false) then false
    else if s.confidence < cfg.min_confidence then false
    else if 0 < cfg.min_trend_strength ∧ s.trend_strength < cfg.min_trend_strength then
      false
    else if cfg.require_breakout ∧ ¬s.is_breakout then false
    else if 0 < cfg.min_volume_consistency ∧
            s.volume_consistency < cfg.min_volume_consistency then false
    else true

/-- `TradingStrategy.enter_position`: build the position for a fill at
    `entry_price`. -/
def enter_position (cfg : StratConfig) (entry_price : ℚ) : Position :=
  let quantity := cfg.position_size_usdt / entry_price
  match cfg.direction with
  | .LONG =>
    { direction := .LONG
      entry_price := entry_price
      quantity := quantity
      take_profit := entry_price * (1 + cfg.take_profit / 100)
      stop_loss := entry_price * (1 - cfg.stop_loss / 100)
      highest_price := entry_price
      lowest_price := entry_price }
  | .SHORT =>
    { direction := .SHORT
      entry_price := entry_price
      quantity := quantity
      take_profit := entry_price * (1 - cfg.take_profit / 100)
      stop_loss := entry_price * (1 + cfg.stop_loss / 100)
      highest_price := entry_price
      lowest_price := entry_price }

/-- `TradingStrategy.check_exit`: update the trailing extremes (and, when
    `trailing_stop` is enabled, ratchet the stop), then test TP before SL.
    Returns the updated position and `some (reason, exit_price)` on exit. -/
def check_exit (cfg : StratConfig) (pos : Position) (candle : Candle) :
    Position × Option (String × ℚ) :=
  let high := candle.high
  let low := candle.low
  match pos.direction with
  | .LONG =>
    let pos1 :=
      if pos.highest_price < high then
        let pos' := { pos with highest_price := high }
        if cfg.trailing_stop then
          let new_stop := high * (1 - cfg.stop_loss / 100)
          if pos.stop_loss < new_stop then { pos' with stop_loss := new_stop }
          else pos'
        else pos'
      else pos
    if pos1.take_profit ≤ high then (pos1, some ("TP", pos1.take_profit))
    else if low ≤ pos1.stop_loss then (pos1, some ("SL", pos1.stop_loss))
    else (pos1, none)
  | .SHORT =>
    let pos1 :=
      if low < pos.lowest_price then
        let pos' := { pos with lowest_price := low }
        if cfg.trailing_stop then
          let new_stop := low * (1 + cfg.stop_loss / 100)
          if new_stop < pos.stop_loss then { pos' with stop_loss := new_stop }
          else pos'
        else pos'
      else pos
    if low ≤ pos1.take_profit then (pos1, some ("TP", pos1.take_profit))
    else if pos1.stop_loss ≤ high then (pos1, some ("SL", pos1.stop_loss))
    else (pos1, none)

/-- `TradingStrategy.close_position`: realize the PnL of `pos` at
    `exit_price` and update the strategy's accounting state.  Returns the
    new state together with `(pnl_usdt, pnl_percent)`. -/
def close_position (pos : Position) (exit_price : ℚ) (s : StrategyState) :
    StrategyState × ℚ × ℚ :=
  let pnl :=
    match pos.direction with
    | .LONG =>
      (((exit_price - pos.entry_price) / pos.entry_price) * 100,
        (exit_price - pos.entry_price) * pos.quantity)
    | .SHORT =>
      (((pos.entry_price - exit_price) / pos.entry_price) * 100,
        (pos.entry_price - exit_price) * pos.quantity)
  let pnl_percent := pnl.1
  let pnl_usdt := pnl.2
  let new_balance := s.current_balance + pnl_usdt
  let new_peak := if s.peak_balance < new_balance then new_balance else s.peak_balance
  let s' : StrategyState :=
    { total_trades := s.total_trades + 1
      winning_trades := if 0 < pnl_usdt then s.winning_trades + 1 else s.winning_trades
      losing_trades := if 0 < pnl_usdt then s.losing_trades else s.losing_trades + 1
      total_pnl := s.total_pnl + pnl_usdt
      total_pnl_percent := s.total_pnl_percent + pnl_percent
      current_balance := new_balance
      peak_balance := new_peak
      trade_pnls := s.trade_pnls ++ [pnl_usdt] }
  (s', pnl_usdt, pnl_percent)

/-- The `win_rate` computed by `TradingStrategy.calculate_final_stats`
    (`0` while no trade is recorded, as the stats dict is initialized). -/
def win_rate (s : StrategyState) : ℚ :=
  if s.total_trades = 0 then 0
  else ((s.winning_trades : ℚ) / s.total_trades) * 100

/-- The `profit_factor` computed by
    `TradingStrategy.calculate_final_stats`: gross wins over absolute gross
    losses, `0` when no losses are recorded. -/
def profit_factor (s : StrategyState) : ℚ :=
  let wins := s.trade_pnls.filter (fun p => decide (0 < p))
  let losses := s.trade_pnls.filter (fun p => decide (p < 0))
  let total_wins := wins.sum
  let total_losses := |losses.sum|
  if 0 < total_losses then total_wins / total_losses else 0

/-! ## TradingBot: exit decision and reduce-TP decay -/

/-- The TP/SL decision ladder of `TradingBot.check_exit`
    (`src/x1/bot/trading/trading_bot.py`, lines 681-694), applied after any
    reduce-TP update: TP is tested first, SL only in the `elif`. -/
def bot_exit_decision (direction : Direction) (take_profit stop_loss : ℚ)
    (high low : ℚ) (suffix : String) : Option (ℚ × String) :=
  match direction with
  | .LONG =>
    if take_profit ≤ high then some (take_profit, "TP" ++ suffix)
    else if low ≤ stop_loss then some (stop_loss, "SL")
    else none
  | .SHORT =>
    if low ≤ take_profit then some (take_profit, "TP" ++ suffix)
    else if stop_loss ≤ high then some (stop_loss, "SL")
    else none

/-- `TradingBot._calculate_reduced_tp`: given the trade's entry price,
    stop loss and current take profit, the reduce-info (`initial_tp` and
    `last_reduce_minute`) and the number of whole minutes held, return the
    new take profit and the updated `last_reduce_minute`. -/
def calculate_reduced_tp (direction : Direction) (reduce : ℚ)
    (entry_price stop_loss take_profit initial_tp : ℚ)
    (last_reduce_minute minutes_held : ℤ) : ℚ × ℤ :=
  if minutes_held ≤ last_reduce_minute then (take_profit, last_reduce_minute)
  else
    match direction with
    | .LONG =>
      let tp_distance := initial_tp - entry_price
      let sl_distance := entry_price - stop_loss
      let total_distance := tp_distance + sl_distance
      let reduction_per_minute := total_distance * (reduce / 100)
      let total_reduction := reduction_per_minute * (minutes_held : ℚ)
      (max (initial_tp - total_reduction) stop_loss, minutes_held)
    | .SHORT =>
      let tp_distance := entry_price - initial_tp
      let sl_distance := stop_loss - entry_price
      let total_distance := tp_distance + sl_distance
      let reduction_per_minute := total_distance * (reduce / 100)
      let total_reduction := reduction_per_minute * (minutes_held : ℚ)
      (min (initial_tp + total_reduction) stop_loss, minutes_held)

/-- The take-profit sequence produced by applying
    `TradingBot._calculate_reduced_tp` once per elapsed minute to a position
    with a fixed stop loss: `tpSeq k` is the take profit after `k` whole
    minutes (at minute `k` the call sees `last_reduce_minute = k - 1`). -/
def tpSeq (direction : Direction) (reduce entry_price stop_loss initial_tp : ℚ) :
    ℕ → ℚ
  | 0 => initial_tp
  | k + 1 =>
    (calculate_reduced_tp direction reduce entry_price stop_loss
      (tpSeq direction reduce entry_price stop_loss initial_tp k) initial_tp
      (k : ℤ) ((k : ℤ) + 1)).1

/-! ## Theorems -/

theorem pyRound_nonneg (q : ℚ) (hq : 0 ≤ q) : 0 ≤ pyRound q := by
  have hf : (0:ℤ) ≤ ⌊q⌋ := Int.le_floor.mpr (by exact_mod_cast hq)
  unfold pyRound
  dsimp only
  split_ifs <;> omega


theorem tpSeq_long_closed (reduce entry_price stop_loss initial_tp : ℚ) (k : ℕ) :
    tpSeq .LONG reduce entry_price stop_loss initial_tp (k + 1) =
      max (initial_tp -
            ((initial_tp - entry_price) + (entry_price - stop_loss)) * (reduce / 100) *
              ((k : ℚ) + 1)) stop_loss := by
  have hguard : ¬ ((k : ℤ) + 1 ≤ (k : ℤ)) := by omega
  simp only [tpSeq, calculate_reduced_tp, hguard, if_false]
  push_cast
  ring_nf

theorem tpSeq_short_closed (reduce entry_price stop_loss initial_tp : ℚ) (k : ℕ) :
    tpSeq .SHORT reduce entry_price stop_loss initial_tp (k + 1) =
      min (initial_tp +
            ((entry_price - initial_tp) + (stop_loss - entry_price)) * (reduce / 100) *
              ((k : ℚ) + 1)) stop_loss := by
  have hguard : ¬ ((k : ℤ) + 1 ≤ (k : ℤ)) := by omega
  simp only [tpSeq, calculate_reduced_tp, hguard, if_false]
  push_cast
  ring_nf

/-- C1: for an open position with reduce enabled and a fixed stop loss,
successive per-minute applications of `TradingBot._calculate_reduced_tp`
produce a take-profit sequence that walks monotonically toward the stop
loss and never crosses it: LONG take profits are nonincreasing and stay
`≥ stopLoss`; SHORT take profits are nondecreasing and stay `≤ stopLoss`. -/
theorem reduce_tp_monotone_convergence
    (reduce entry_price slL initL slS initS : ℚ)
    (hr : 0 < reduce) (hL : slL ≤ initL) (hS : initS ≤ slS) (k : ℕ) :
    (tpSeq .LONG reduce entry_price slL initL (k + 1) ≤
        tpSeq .LONG reduce entry_price slL initL k ∧
      slL ≤ tpSeq .LONG reduce entry_price slL initL (k + 1)) ∧
    (tpSeq .SHORT reduce entry_price slS initS k ≤
        tpSeq .SHORT reduce entry_price slS initS (k + 1) ∧
      tpSeq .SHORT reduce entry_price slS initS (k + 1) ≤ slS) := by
  have hcL : 0 ≤ ((initL - entry_price) + (entry_price - slL)) * (reduce / 100) := by
    have h1 : 0 ≤ (initL - entry_price) + (entry_price - slL) := by linarith
    have h2 : 0 ≤ reduce / 100 := by positivity
    exact mul_nonneg h1 h2
  have hcS : 0 ≤ ((entry_price - initS) + (slS - entry_price)) * (reduce / 100) := by
    have h1 : 0 ≤ (entry_price - initS) + (slS - entry_price) := by linarith
    have h2 : 0 ≤ reduce / 100 := by positivity
    exact mul_nonneg h1 h2
  refine ⟨⟨?_, ?_⟩, ⟨?_, ?_⟩⟩
  · -- LONG: nonincreasing
    cases k with
    | zero =>
      rw [tpSeq_long_closed]
      show max _ slL ≤ tpSeq .LONG reduce entry_price slL initL 0
      have : tpSeq .LONG reduce entry_price slL initL 0 = initL := rfl
      rw [this]
      apply max_le _ hL
      nlinarith
    | succ m =>
      rw [tpSeq_long_closed, tpSeq_long_closed]
      apply max_le_max_right
      push_cast
      nlinarith
  · -- LONG: never below the stop loss
    rw [tpSeq_long_closed]
    exact le_max_right _ _
  · -- SHORT: nondecreasing
    cases k with
    | zero =>
      rw [tpSeq_short_closed]
      have h0 : tpSeq .SHORT reduce entry_price slS initS 0 = initS := rfl
      rw [h0]
      apply le_min _ hS
      nlinarith
    | succ m =>
      rw [tpSeq_short_closed, tpSeq_short_closed]
      apply min_le_min_right
      push_cast
      nlinarith
  · -- SHORT: never above the stop loss
    rw [tpSeq_short_closed]
    exact min_le_right _ _

/-- Witness for C1 at `reduce = 10`, entry `100`, LONG `SL 98` / `TP 105`,
SHORT `SL 102` / `TP 95`, first elapsed minute. -/
theorem reduce_tp_monotone_convergence_witness :
    (0 : ℚ) < 10 ∧ (98 : ℚ) ≤ 105 ∧ (95 : ℚ) ≤ 102 ∧
    ((tpSeq .LONG 10 100 98 105 1 ≤ tpSeq .LONG 10 100 98 105 0 ∧
        (98 : ℚ) ≤ tpSeq .LONG 10 100 98 105 1) ∧
      (tpSeq .SHORT 10 100 102 95 0 ≤ tpSeq .SHORT 10 100 102 95 1 ∧
        tpSeq .SHORT 10 100 102 95 1 ≤ (102 : ℚ))) :=
  ⟨by norm_num, by norm_num, by norm_num,
    reduce_tp_monotone_convergence 10 100 98 105 102 95 (by norm_num)
      (by norm_num) (by norm_num) 0⟩

/-- C4: when one candle satisfies both the TP and the SL condition, the exit
check returns the take-profit exit (price = the position's take profit,
reason `TP`), never the stop-loss exit — in `TradingStrategy.check_exit` and
in the decision ladder of `TradingBot.check_exit` alike. -/
theorem tp_checked_before_sl (cfg : StratConfig) (pos : Position) (candle : Candle) :
    (pos.direction = .LONG → pos.take_profit ≤ candle.high →
      candle.low ≤ pos.stop_loss →
      (check_exit cfg pos candle).2 = some ("TP", pos.take_profit)) ∧
    (pos.direction = .SHORT → candle.low ≤ pos.take_profit →
      pos.stop_loss ≤ candle.high →
      (check_exit cfg pos candle).2 = some ("TP", pos.take_profit)) ∧
    (∀ (tp sl high low : ℚ) (suffix : String), tp ≤ high → low ≤ sl →
      bot_exit_decision .LONG tp sl high low suffix = some (tp, "TP" ++ suffix)) ∧
    (∀ (tp sl high low : ℚ) (suffix : String), low ≤ tp → sl ≤ high →
      bot_exit_decision .SHORT tp sl high low suffix = some (tp, "TP" ++ suffix)) := by
  refine ⟨?_, ?_, ?_, ?_⟩
  · intro hdir htp _
    unfold check_exit
    rw [hdir]
    dsimp only
    split_ifs <;> simp_all
  · intro hdir htp _
    unfold check_exit
    rw [hdir]
    dsimp only
    split_ifs <;> simp_all
  · intro tp sl high low suffix htp _
    unfold bot_exit_decision
    dsimp only
    rw [if_pos htp]
  · intro tp sl high low suffix htp _
    unfold bot_exit_decision
    dsimp only
    rw [if_pos htp]

/-- Witness for C4: a LONG position with TP 105 / SL 98 and a candle with
high 106, low 97 exits at the take profit. -/
theorem tp_checked_before_sl_witness :
    (Position.direction ⟨.LONG, 100, 1, 105, 98, 100, 100⟩ = .LONG) ∧
    ((105 : ℚ) ≤ 106) ∧ ((97 : ℚ) ≤ 98) ∧
    (check_exit
        ⟨.LONG, 5, 2, 3, 2, 50, 70, "1m", 100, 0, false, 0, false, 0⟩
        ⟨.LONG, 100, 1, 105, 98, 100, 100⟩
        ⟨0, 100, 106, 97, 100, 0⟩).2 = some ("TP", (105 : ℚ)) :=
  ⟨rfl, by norm_num, by norm_num,
    (tp_checked_before_sl
        ⟨.LONG, 5, 2, 3, 2, 50, 70, "1m", 100, 0, false, 0, false, 0⟩
        ⟨.LONG, 100, 1, 105, 98, 100, 100⟩
        ⟨0, 100, 106, 97, 100, 0⟩).1 rfl (by norm_num) (by norm_num)⟩

/-- C9: with `trailing_stop` enabled, `TradingStrategy.check_exit` ratchets
the stop loss on every new price extreme — for LONG, a new high moves the
stop to `high × (1 − stopLoss/100)` whenever that is larger, and the stop
never decreases; for SHORT, mirrored, and the stop never increases. -/
theorem trailing_stop_ratchet (cfg : StratConfig) (pos : Position) (candle : Candle)
    (ht : cfg.trailing_stop = true) :
    (pos.direction = .LONG →
      pos.stop_loss ≤ ((check_exit cfg pos candle).1).stop_loss ∧
      (pos.highest_price < candle.high →
        pos.stop_loss < candle.high * (1 - cfg.stop_loss / 100) →
        ((check_exit cfg pos candle).1).stop_loss =
          candle.high * (1 - cfg.stop_loss / 100))) ∧
    (pos.direction = .SHORT →
      ((check_exit cfg pos candle).1).stop_loss ≤ pos.stop_loss ∧
      (candle.low < pos.lowest_price →
        candle.low * (1 + cfg.stop_loss / 100) < pos.stop_loss →
        ((check_exit cfg pos candle).1).stop_loss =
          candle.low * (1 + cfg.stop_loss / 100))) := by
  constructor
  · intro hdir
    unfold check_exit
    rw [hdir, ht]
    dsimp only
    split_ifs <;> refine ⟨?_, fun hh1 hh2 => ?_⟩ <;> simp_all <;> linarith
  · intro hdir
    unfold check_exit
    rw [hdir, ht]
    dsimp only
    split_ifs <;> refine ⟨?_, fun hh1 hh2 => ?_⟩ <;> simp_all <;> linarith

/-- Witness for C9: a LONG trailing position with SL 98 and stop-loss pct 2
sees a new high of 110 and ratchets its stop to `110 × (1 − 2/100)`. -/
theorem trailing_stop_ratchet_witness :
    (StratConfig.trailing_stop
        ⟨.LONG, 5, 2, 3, 2, 50, 70, "1m", 100, 0, false, 0, true, 0⟩ = true) ∧
    ((98 : ℚ) ≤
      ((check_exit ⟨.LONG, 5, 2, 3, 2, 50, 70, "1m", 100, 0, false, 0, true, 0⟩
          ⟨.LONG, 100, 1, 105, 98, 100, 100⟩ ⟨0, 105, 110, 104, 108, 0⟩).1).stop_loss) ∧
    ((check_exit ⟨.LONG, 5, 2, 3, 2, 50, 70, "1m", 100, 0, false, 0, true, 0⟩
        ⟨.LONG, 100, 1, 105, 98, 100, 100⟩ ⟨0, 105, 110, 104, 108, 0⟩).1).stop_loss =
      110 * (1 - 2 / 100) :=
  ⟨rfl,
    ((trailing_stop_ratchet
        ⟨.LONG, 5, 2, 3, 2, 50, 70, "1m", 100, 0, false, 0, true, 0⟩
        ⟨.LONG, 100, 1, 105, 98, 100, 100⟩ ⟨0, 105, 110, 104, 108, 0⟩ rfl).1 rfl).1,
    ((trailing_stop_ratchet
        ⟨.LONG, 5, 2, 3, 2, 50, 70, "1m", 100, 0, false, 0, true, 0⟩
        ⟨.LONG, 100, 1, 105, 98, 100, 100⟩ ⟨0, 105, 110, 104, 108, 0⟩ rfl).1 rfl).2
      (by norm_num) (by norm_num)⟩



theorem should_enter_eq_true_iff (cfg : StratConfig) (s : EntrySignal) :
    should_enter cfg s = true ↔
      (s.timeframe.getD "1m" = cfg.timeframe ∧
        cfg.price_increase_threshold ≤
          (if cfg.timeframe = "1m" then s.price_change_1m else s.price_change_5m) ∧
        cfg.volume_multiplier ≤ s.volume_ratio ∧
        (s.rsi = none ∨ ∃ r, s.rsi = some r ∧ cfg.rsi_threshold ≤ r) ∧
        cfg.min_confidence ≤ s.confidence ∧
        (0 < cfg.min_trend_strength → cfg.min_trend_strength ≤ s.trend_strength) ∧
        (cfg.require_breakout = true → s.is_breakout = true) ∧
        (0 < cfg.min_volume_consistency →
          cfg.min_volume_consistency ≤ s.volume_consistency)) := by
  rcases hr : s.rsi with _ | r
  · unfold should_enter
    rw [hr]
    dsimp only
    generalize (if cfg.timeframe = "1m" then s.price_change_1m else s.price_change_5m) = pc
    constructor
    · intro h
      split_ifs at h with h1 h2 h3 h4 h5 h6 h7 h8
      exact ⟨not_not.mp h1, not_lt.mp h2, not_lt.mp h3, Or.inl rfl, not_lt.mp h5,
        fun h0 => le_of_not_lt fun hlt => h6 ⟨h0, hlt⟩,
        fun hrb => by_contra fun hib => h7 ⟨hrb, hib⟩,
        fun h0 => le_of_not_lt fun hlt => h8 ⟨h0, hlt⟩⟩
    · rintro ⟨ha, hb, hc, _, he, hf, hg, hh⟩
      rw [if_neg (not_not_intro ha), if_neg (not_lt.mpr hb), if_neg (not_lt.mpr hc),
        if_neg (by simp), if_neg (not_lt.mpr he),
        if_neg (fun hx => absurd (hf hx.1) (not_le.mpr hx.2)),
        if_neg (fun hx => hx.2 (hg hx.1)),
        if_neg (fun hx => absurd (hh hx.1) (not_le.mpr hx.2))]
  · unfold should_enter
    rw [hr]
    dsimp only
    generalize (if cfg.timeframe = "1m" then s.price_change_1m else s.price_change_5m) = pc
    constructor
    · intro h
      split_ifs at h with h1 h2 h3 h4 h5 h6 h7 h8
      refine ⟨not_not.mp h1, not_lt.mp h2, not_lt.mp h3,
        Or.inr ⟨r, rfl, ?_⟩, not_lt.mp h5,
        fun h0 => le_of_not_lt fun hlt => h6 ⟨h0, hlt⟩,
        fun hrb => by_contra fun hib => h7 ⟨hrb, hib⟩,
        fun h0 => le_of_not_lt fun hlt => h8 ⟨h0, hlt⟩⟩
      have hd4 : ¬r < cfg.rsi_threshold := by simpa using h4
      exact not_lt.mp hd4
    · rintro ⟨ha, hb, hc, hd, he, hf, hg, hh⟩
      have hdr : cfg.rsi_threshold ≤ r := by
        rcases hd with hd | ⟨r', hr', hle⟩
        · cases hd
        · cases hr'
          exact hle
      rw [if_neg (not_not_intro ha), if_neg (not_lt.mpr hb), if_neg (not_lt.mpr hc),
        if_neg (by simp [not_lt.mpr hdr]), if_neg (not_lt.mpr he),
        if_neg (fun hx => absurd (hf hx.1) (not_le.mpr hx.2)),
        if_neg (fun hx => hx.2 (hg hx.1)),
        if_neg (fun hx => absurd (hh hx.1) (not_le.mpr hx.2))]

/-- C5: `should_enter` (in `TradingStrategy`, and identically in
`TradingBot`) returns true iff every entry filter passes: timeframe match,
the timeframe-appropriate price change at least the threshold, volume ratio
at least the multiplier, RSI absent or at least the threshold, confidence at
least the minimum, and each optional condition whenever configured
(trend strength, breakout, volume consistency). -/
theorem should_enter_characterization (cfg : StratConfig) (s : EntrySignal) :
    (should_enter cfg s = true ↔
      (s.timeframe.getD "1m" = cfg.timeframe ∧
        cfg.price_increase_threshold ≤
          (if cfg.timeframe = "1m" then s.price_change_1m else s.price_change_5m) ∧
        cfg.volume_multiplier ≤ s.volume_ratio ∧
        (s.rsi = none ∨ ∃ r, s.rsi = some r ∧ cfg.rsi_threshold ≤ r) ∧
        cfg.min_confidence ≤ s.confidence ∧
        (0 < cfg.min_trend_strength → cfg.min_trend_strength ≤ s.trend_strength) ∧
        (cfg.require_breakout = true → s.is_breakout = true) ∧
        (0 < cfg.min_volume_consistency →
          cfg.min_volume_consistency ≤ s.volume_consistency))) ∧
    bot_should_enter cfg s = should_enter cfg s :=
  ⟨should_enter_eq_true_iff cfg s, rfl⟩

/-- Witness for C5: the bot-side and strategy-side entry filters agree on a
concrete config and signal. -/
theorem should_enter_characterization_witness :
    bot_should_enter ⟨.LONG, 5, 2, 3, 2, 50, 70, "1m", 100, 0, false, 0, false, 0⟩
        ⟨some "1m", 4, 0, 4, none, 80, 0, false, 0⟩ =
      should_enter ⟨.LONG, 5, 2, 3, 2, 50, 70, "1m", 100, 0, false, 0, false, 0⟩
        ⟨some "1m", 4, 0, 4, none, 80, 0, false, 0⟩ :=
  (should_enter_characterization
    ⟨.LONG, 5, 2, 3, 2, 50, 70, "1m", 100, 0, false, 0, false, 0⟩
    ⟨some "1m", 4, 0, 4, none, 80, 0, false, 0⟩).2

/-- C6: closing a position with positive quantity realizes
`pnlUsdt = (exit − entry) × qty` for LONG (positive when exit > entry) and
`(entry − exit) × qty` for SHORT (negative when exit > entry), with
`pnlPct` the analogous ratio times 100. -/
theorem pnl_sign_correctness (pos : Position) (exit_price : ℚ) (s : StrategyState)
    (hq : 0 < pos.quantity) (hx : pos.entry_price < exit_price) :
    (pos.direction = .LONG →
      (close_position pos exit_price s).2.1 =
          (exit_price - pos.entry_price) * pos.quantity ∧
        0 < (close_position pos exit_price s).2.1 ∧
        (close_position pos exit_price s).2.2 =
          ((exit_price - pos.entry_price) / pos.entry_price) * 100) ∧
    (pos.direction = .SHORT →
      (close_position pos exit_price s).2.1 =
          (pos.entry_price - exit_price) * pos.quantity ∧
        (close_position pos exit_price s).2.1 < 0 ∧
        (close_position pos exit_price s).2.2 =
          ((pos.entry_price - exit_price) / pos.entry_price) * 100) := by
  constructor
  · intro hdir
    unfold close_position
    rw [hdir]
    dsimp only
    exact ⟨rfl, mul_pos (by linarith) hq, rfl⟩
  · intro hdir
    unfold close_position
    rw [hdir]
    dsimp only
    exact ⟨rfl, mul_neg_of_neg_of_pos (by linarith) hq, rfl⟩

/-- Witness for C6: LONG entry 100, quantity 1, exit 105 yields pnl 5 > 0. -/
theorem pnl_sign_correctness_witness :
    (0 : ℚ) < 1 ∧ (100 : ℚ) < 105 ∧
    ((close_position ⟨.LONG, 100, 1, 105, 98, 100, 100⟩ 105
          ⟨0, 0, 0, 0, 0, 1000, 1000, []⟩).2.1 =
        ((105 : ℚ) - 100) * 1 ∧
      0 < (close_position ⟨.LONG, 100, 1, 105, 98, 100, 100⟩ 105
          ⟨0, 0, 0, 0, 0, 1000, 1000, []⟩).2.1 ∧
      (close_position ⟨.LONG, 100, 1, 105, 98, 100, 100⟩ 105
          ⟨0, 0, 0, 0, 0, 1000, 1000, []⟩).2.2 =
        (((105 : ℚ) - 100) / 100) * 100) :=
  ⟨by norm_num, by norm_num,
    (pnl_sign_correctness ⟨.LONG, 100, 1, 105, 98, 100, 100⟩ 105
        ⟨0, 0, 0, 0, 0, 1000, 1000, []⟩ (by norm_num) (by norm_num)).1 rfl⟩

/-- C10: `close_position` counts a trade with `pnlUsdt = 0` as losing —
`winning_trades` is incremented only when `pnlUsdt > 0` and
`losing_trades` otherwise, each close increments exactly one of the two —
and a break-even trade strictly lowers the reported win rate. -/
theorem break_even_counts_as_loss (pos : Position) (exit_price : ℚ)
    (s : StrategyState) :
    (0 < (close_position pos exit_price s).2.1 →
      (close_position pos exit_price s).1.winning_trades = s.winning_trades + 1 ∧
      (close_position pos exit_price s).1.losing_trades = s.losing_trades) ∧
    (¬0 < (close_position pos exit_price s).2.1 →
      (close_position pos exit_price s).1.winning_trades = s.winning_trades ∧
      (close_position pos exit_price s).1.losing_trades = s.losing_trades + 1) ∧
    (close_position pos exit_price s).1.total_trades = s.total_trades + 1 ∧
    ((close_position pos exit_price s).2.1 = 0 → 0 < s.total_trades →
      0 < s.winning_trades →
      win_rate (close_position pos exit_price s).1 < win_rate s) := by
  have hpnl : (close_position pos exit_price s).2.1 =
      (match pos.direction with
        | .LONG => (exit_price - pos.entry_price) * pos.quantity
        | .SHORT => (pos.entry_price - exit_price) * pos.quantity) := by
    unfold close_position
    cases pos.direction <;> rfl
  have part1 : 0 < (close_position pos exit_price s).2.1 →
      (close_position pos exit_price s).1.winning_trades = s.winning_trades + 1 ∧
      (close_position pos exit_price s).1.losing_trades = s.losing_trades := by
    intro h
    rw [hpnl] at h
    unfold close_position
    cases hd : pos.direction <;> rw [hd] at h <;> dsimp only at h ⊢ <;>
      simp [if_pos h]
  have part2 : ¬0 < (close_position pos exit_price s).2.1 →
      (close_position pos exit_price s).1.winning_trades = s.winning_trades ∧
      (close_position pos exit_price s).1.losing_trades = s.losing_trades + 1 := by
    intro h
    rw [hpnl] at h
    unfold close_position
    cases hd : pos.direction <;> rw [hd] at h <;> dsimp only at h ⊢ <;>
      simp [if_neg h]
  have part3 : (close_position pos exit_price s).1.total_trades = s.total_trades + 1 := by
    unfold close_position
    cases pos.direction <;> rfl
  refine ⟨part1, part2, part3, ?_⟩
  intro h0 htot hwin
  have hwt := (part2 (by rw [h0]; exact lt_irrefl 0)).1
  rw [win_rate, win_rate, hwt, part3, if_neg (by omega), if_neg (by omega)]
  have h1 : (0 : ℚ) < s.winning_trades := by exact_mod_cast hwin
  have h2 : (0 : ℚ) < s.total_trades := by exact_mod_cast htot
  have h3 : (s.total_trades : ℚ) < (s.total_trades : ℚ) + 1 := by linarith
  have key : (s.winning_trades : ℚ) / ((s.total_trades : ℚ) + 1) <
      (s.winning_trades : ℚ) / s.total_trades :=
    div_lt_div_of_pos_left h1 h2 h3
  have hcast : ((s.total_trades + 1 : ℕ) : ℚ) = (s.total_trades : ℚ) + 1 := by
    push_cast
    ring
  rw [hcast]
  nlinarith

/-- Witness for C10: a LONG break-even close (entry = exit = 100) on a state
with 2 trades (1 win) increments the losing counter and lowers the win rate. -/
theorem break_even_counts_as_loss_witness :
    (¬(0 : ℚ) < (close_position ⟨.LONG, 100, 1, 105, 98, 100, 100⟩ 100
        ⟨2, 1, 1, 0, 0, 1000, 1000, [5, -5]⟩).2.1) ∧
    ((close_position ⟨.LONG, 100, 1, 105, 98, 100, 100⟩ 100
          ⟨2, 1, 1, 0, 0, 1000, 1000, [5, -5]⟩).1.winning_trades = 1 ∧
      (close_position ⟨.LONG, 100, 1, 105, 98, 100, 100⟩ 100
          ⟨2, 1, 1, 0, 0, 1000, 1000, [5, -5]⟩).1.losing_trades = 1 + 1) ∧
    win_rate (close_position ⟨.LONG, 100, 1, 105, 98, 100, 100⟩ 100
        ⟨2, 1, 1, 0, 0, 1000, 1000, [5, -5]⟩).1 <
      win_rate ⟨2, 1, 1, 0, 0, 1000, 1000, [5, -5]⟩ :=
  ⟨by norm_num [close_position],
    (break_even_counts_as_loss ⟨.LONG, 100, 1, 105, 98, 100, 100⟩ 100
        ⟨2, 1, 1, 0, 0, 1000, 1000, [5, -5]⟩).2.1
      (by norm_num [close_position]),
    (break_even_counts_as_loss ⟨.LONG, 100, 1, 105, 98, 100, 100⟩ 100
        ⟨2, 1, 1, 0, 0, 1000, 1000, [5, -5]⟩).2.2.2
      (by norm_num [close_position]) (by norm_num) (by norm_num)⟩

/-- C8: zero-denominator edge cases return sentinels instead of raising:
`calculate_rsi` returns `100` when the average loss over the 14-delta
window is `0`; `calculate_volume_spike_realtime` returns `1` when fewer
than 10 candles are buffered and when the mean prior volume is `0`; and
`profit_factor` is `0` when no losing trade is recorded. -/
theorem numeric_edge_sentinels :
    (∀ candles : List Candle, 15 ≤ candles.length → rsiAvgLoss candles = 0 →
      calculate_rsi candles = some 100) ∧
    (∀ (candles : List Candle) (now : ℚ), candles.length < 10 →
      calculate_volume_spike_realtime candles now = 1) ∧
    (∀ (candles : List Candle) (now : ℚ), 10 ≤ candles.length →
      priorVolumeMean candles = 0 →
      calculate_volume_spike_realtime candles now = 1) ∧
    (∀ s : StrategyState, (∀ p ∈ s.trade_pnls, 0 ≤ p) → profit_factor s = 0) := by
  refine ⟨?_, ?_, ?_, ?_⟩
  · intro candles hlen hloss
    unfold calculate_rsi
    rw [if_neg (by omega), if_pos hloss]
  · intro candles now hlen
    unfold calculate_volume_spike_realtime
    rw [if_pos hlen]
  · intro candles now hlen hmean
    unfold calculate_volume_spike_realtime
    rw [if_neg (by omega)]
    dsimp only
    rw [if_pos hmean]
  · intro s hpos
    unfold profit_factor
    have hfil : s.trade_pnls.filter (fun p => decide (p < 0)) = [] := by
      rw [List.filter_eq_nil_iff]
      intro p hp
      simpa using not_lt.mpr (hpos p hp)
    rw [hfil]
    dsimp only
    norm_num

/-- Witness for C8: 15 flat candles give RSI 100; a short buffer and a
zero-prior-volume buffer give spike ratio 1; a loss-free state gives
profit factor 0. -/
theorem numeric_edge_sentinels_witness :
    (15 ≤ (List.replicate 15 dummyCandle).length ∧
      rsiAvgLoss (List.replicate 15 dummyCandle) = 0 ∧
      calculate_rsi (List.replicate 15 dummyCandle) = some 100) ∧
    ((List.replicate 3 dummyCandle).length < 10 ∧
      calculate_volume_spike_realtime (List.replicate 3 dummyCandle) 30 = 1) ∧
    (10 ≤ (List.replicate 12 dummyCandle).length ∧
      priorVolumeMean (List.replicate 12 dummyCandle) = 0 ∧
      calculate_volume_spike_realtime (List.replicate 12 dummyCandle) 30 = 1) ∧
    ((∀ p ∈ ([5, 0, 3] : List ℚ), 0 ≤ p) ∧
      profit_factor ⟨3, 2, 1, 8, 8, 1008, 1008, [5, 0, 3]⟩ = 0) :=
  ⟨⟨by decide,
      by norm_num [rsiAvgLoss, dummyCandle, List.replicate],
      numeric_edge_sentinels.1 (List.replicate 15 dummyCandle) (by decide)
        (by norm_num [rsiAvgLoss, dummyCandle, List.replicate])⟩,
    ⟨by decide,
      numeric_edge_sentinels.2.1 (List.replicate 3 dummyCandle) 30 (by decide)⟩,
    ⟨by decide,
      by norm_num [priorVolumeMean, dummyCandle, List.replicate],
      numeric_edge_sentinels.2.2.1 (List.replicate 12 dummyCandle) 30 (by decide)
        (by norm_num [priorVolumeMean, dummyCandle, List.replicate])⟩,
    ⟨by norm_num,
      numeric_edge_sentinels.2.2.2 ⟨3, 2, 1, 8, 8, 1008, 1008, [5, 0, 3]⟩
        (by norm_num)⟩⟩

theorem calculate_confidence_bounds (cfg : DetectorConfig) (p1 p5 vr : ℚ)
    (rsi : Option ℚ) (mom bp : ℚ)
    (h1 : 0 ≤ cfg.price_increase_1m) (h2 : 0 ≤ cfg.volume_spike_multiplier)
    (hp : 0 ≤ p1) (hv : 0 ≤ vr) :
    0 ≤ calculate_confidence cfg p1 p5 vr rsi mom bp ∧
      calculate_confidence cfg p1 p5 vr rsi mom bp ≤ 100 := by
  have hps : (0:ℚ) ≤ min 30 ((p1 / cfg.price_increase_1m) * 15) :=
    le_min (by norm_num) (mul_nonneg (div_nonneg hp h1) (by norm_num))
  have hvs : (0:ℚ) ≤ min 25 ((vr / cfg.volume_spike_multiplier) * 25) :=
    le_min (by norm_num) (mul_nonneg (div_nonneg hv h2) (by norm_num))
  constructor
  · unfold calculate_confidence
    dsimp only
    rcases rsi with _ | r <;> dsimp only <;> split_ifs <;>
      · refine le_min (by norm_num) (pyRound_nonneg _ ?_)
        linarith
  · unfold calculate_confidence
    dsimp only
    exact min_le_left _ _

theorem analyze_emitted_confidence_bounds (st : DetectorState) (sym : String)
    (now : ℚ) (inc : Bool) (sig : PumpSignal)
    (h : (analyze_pump_realtime default_config st sym now inc).2 = some sig) :
    0 ≤ sig.confidence ∧ sig.confidence ≤ 100 := by
  unfold analyze_pump_realtime at h
  dsimp only at h
  split_ifs at h with h1 h2 h3 h4 h5 h6 h7 <;> simp only [Option.some.injEq,
    reduceCtorEq] at h
  all_goals
    subst h
    dsimp only
    exact calculate_confidence_bounds default_config _ _ _ _ _ _
      (by norm_num [default_config]) (by norm_num [default_config])
      (le_trans (by norm_num [default_config]) h4.1)
      (le_trans (by norm_num [default_config]) h4.2.1)

/-- Counterexample to C3 as stated: at `priceChange1m = −30` (all other
inputs zero/none), `calculate_confidence` returns a negative value — only
the upper end is clamped by `min(100, ·)`. -/
theorem confidence_below_zero_counterexample :
    calculate_confidence default_config (-30) 0 0 none 0 0 < 0 := by
  norm_num [calculate_confidence, default_config, pyRound]

/-- C3 (amended): for every input combination with `priceChange1m ≥ 0` and
`volumeRatio ≥ 0`, `calculate_confidence` returns a value in `[0, 100]`
(for negative price change the score can go below 0, as only the upper end
is clamped); in particular every emitted `PumpSignal` carries a confidence
in `[0, 100]`. -/
theorem confidence_bounds_amended :
    (∀ (cfg : DetectorConfig) (p1 p5 vr : ℚ) (rsi : Option ℚ) (mom bp : ℚ),
      0 ≤ cfg.price_increase_1m → 0 ≤ cfg.volume_spike_multiplier →
      0 ≤ p1 → 0 ≤ vr →
      0 ≤ calculate_confidence cfg p1 p5 vr rsi mom bp ∧
        calculate_confidence cfg p1 p5 vr rsi mom bp ≤ 100) ∧
    (∀ (st : DetectorState) (sym : String) (now : ℚ) (inc : Bool)
        (sig : PumpSignal),
      (analyze_pump_realtime default_config st sym now inc).2 = some sig →
      0 ≤ sig.confidence ∧ sig.confidence ≤ 100) :=
  ⟨fun cfg p1 p5 vr rsi mom bp h1 h2 hp hv =>
      calculate_confidence_bounds cfg p1 p5 vr rsi mom bp h1 h2 hp hv,
    fun st sym now inc sig h =>
      analyze_emitted_confidence_bounds st sym now inc sig h⟩

/-- Witness for C3 (amended) at `priceChange1m = 4`, `volumeRatio = 4`. -/
theorem confidence_bounds_amended_witness :
    (0 : ℚ) ≤ 3 ∧ (0 : ℚ) ≤ 4 ∧
    (0 ≤ calculate_confidence default_config 4 0 4 none 0 0 ∧
      calculate_confidence default_config 4 0 4 none 0 0 ≤ 100) :=
  ⟨by norm_num, by norm_num,
    confidence_bounds_amended.1 default_config 4 0 4 none 0 0
      (by norm_num [default_config]) (by norm_num [default_config])
      (by norm_num) (by norm_num)⟩

theorem analyze_pump_realtime_candle_history (cfg : DetectorConfig)
    (st : DetectorState) (sym : String) (now : ℚ) (inc : Bool) :
    (analyze_pump_realtime cfg st sym now inc).1.candle_history =
      st.candle_history := by
  unfold analyze_pump_realtime
  dsimp only
  split_ifs <;> rfl

theorem histOf_histSet (st : DetectorState) (sym iv : String) (h : List Candle) :
    histOf (histSet st sym iv h) sym iv = h := by
  simp [histOf, histSet, List.lookup]

theorem histOf_congr (a b : DetectorState) (sym iv : String)
    (h : a.candle_history = b.candle_history) : histOf a sym iv = histOf b sym iv := by
  simp [histOf, h]

/-- C7: for a tick on a non-empty rolling history — in
`PumpDetector.on_candle_update` and in the buffer update of
`StrategyManager.on_candle_update` — an older timestamp is a no-op, an
equal timestamp replaces the latest candle in place (length unchanged),
and a newer timestamp appends the candle (evicting the oldest past the
capacity). -/
theorem candle_buffer_update (cfg : DetectorConfig) (st : DetectorState)
    (sym iv : String) (c : Candle) (now : ℚ) (hne : histOf st sym iv ≠ []) :
    (c.timestamp < ((histOf st sym iv).getLastD dummyCandle).timestamp →
      on_candle_update cfg st sym iv c now = (st, none)) ∧
    (c.timestamp = ((histOf st sym iv).getLastD dummyCandle).timestamp →
      histOf (on_candle_update cfg st sym iv c now).1 sym iv =
        (histOf st sym iv).dropLast ++ [c] ∧
      (histOf (on_candle_update cfg st sym iv c now).1 sym iv).length =
        (histOf st sym iv).length) ∧
    (((histOf st sym iv).getLastD dummyCandle).timestamp < c.timestamp →
      histOf (on_candle_update cfg st sym iv c now).1 sym iv =
        dequePush 100 (histOf st sym iv) c) ∧
    (∀ (history : List Candle) (cn : Candle), history ≠ [] →
      (cn.timestamp < (history.getLastD dummyCandle).timestamp →
        sm_update_buffer history cn = history) ∧
      (cn.timestamp = (history.getLastD dummyCandle).timestamp →
        sm_update_buffer history cn = history.dropLast ++ [cn] ∧
        (sm_update_buffer history cn).length = history.length) ∧
      ((history.getLastD dummyCandle).timestamp < cn.timestamp →
        (sm_update_buffer history cn = history ++ [cn] ∨
          sm_update_buffer history cn = (history ++ [cn]).drop 1) ∧
        (sm_update_buffer history cn).getLastD dummyCandle = cn)) := by
  have hlen0 : ¬(histOf st sym iv).length = 0 :=
    fun hh => hne (List.length_eq_zero.mp hh)
  have hpos : 0 < (histOf st sym iv).length := List.length_pos.mpr hne
  refine ⟨?_, ?_, ?_, ?_⟩
  · intro hlt
    unfold on_candle_update
    dsimp only
    rw [if_neg hlen0, if_neg (not_lt.mpr (le_of_lt hlt)), if_neg (ne_of_lt hlt)]
  · intro heq
    unfold on_candle_update
    dsimp only
    rw [if_neg hlen0, if_neg (not_lt.mpr (le_of_eq heq)), if_pos heq]
    have key : histOf
        (if iv = "Min1" then
          analyze_pump_realtime cfg
            (histSet st sym iv ((histOf st sym iv).dropLast ++ [c])) sym now false
        else (histSet st sym iv ((histOf st sym iv).dropLast ++ [c]), none)).1
        sym iv = (histOf st sym iv).dropLast ++ [c] := by
      split_ifs with hmin
      · rw [histOf_congr _ (histSet st sym iv ((histOf st sym iv).dropLast ++ [c]))
          sym iv (analyze_pump_realtime_candle_history ..), histOf_histSet]
      · exact histOf_histSet ..
    refine ⟨key, ?_⟩
    rw [key]
    simp only [List.length_append, List.length_dropLast, List.length_cons,
      List.length_nil]
    omega
  · intro hgt
    unfold on_candle_update
    dsimp only
    rw [if_neg hlen0, if_pos hgt]
    split_ifs with hmin
    · rw [histOf_congr _ (histSet st sym iv (dequePush 100 (histOf st sym iv) c))
        sym iv (analyze_pump_realtime_candle_history ..), histOf_histSet]
    · exact histOf_histSet ..
  · intro history cn hne'
    have hlen0' : ¬history.length = 0 := fun hh => hne' (List.length_eq_zero.mp hh)
    have hpos' : 0 < history.length := List.length_pos.mpr hne'
    refine ⟨?_, ?_, ?_⟩
    · intro hlt
      unfold sm_update_buffer
      rw [if_neg (by push_neg; exact ⟨hlen0', le_of_lt hlt⟩),
        if_neg (ne_of_lt hlt)]
    · intro heq
      unfold sm_update_buffer
      rw [if_neg (by push_neg; exact ⟨hlen0', le_of_eq heq⟩),
        if_pos heq]
      refine ⟨rfl, ?_⟩
      simp only [List.length_append, List.length_dropLast, List.length_cons,
        List.length_nil]
      omega
    · intro hgt
      unfold sm_update_buffer
      rw [if_pos (Or.inr hgt)]
      dsimp only
      split_ifs with hcap
      · refine ⟨Or.inr rfl, ?_⟩
        rw [List.drop_append_of_le_length (by omega), List.getLastD_concat]
      · exact ⟨Or.inl rfl, List.getLastD_concat ..⟩

/-- Witness for C7: a buffer holding one candle at t=5 ignores a tick at
t=3 and appends a tick at t=7. -/
theorem candle_buffer_update_witness :
    (histOf ⟨[(("A", "Min1"), [⟨5, 1, 1, 1, 1, 1⟩])], []⟩ "A" "Min1" ≠ []) ∧
    on_candle_update default_config ⟨[(("A", "Min1"), [⟨5, 1, 1, 1, 1, 1⟩])], []⟩
        "A" "Min1" ⟨3, 2, 2, 2, 2, 2⟩ 0 =
      (⟨[(("A", "Min1"), [⟨5, 1, 1, 1, 1, 1⟩])], []⟩, none) ∧
    histOf (on_candle_update default_config
        ⟨[(("A", "Min1"), [⟨5, 1, 1, 1, 1, 1⟩])], []⟩
        "A" "Min1" ⟨7, 2, 2, 2, 2, 2⟩ 0).1 "A" "Min1" =
      dequePush 100
        (histOf ⟨[(("A", "Min1"), [⟨5, 1, 1, 1, 1, 1⟩])], []⟩ "A" "Min1")
        ⟨7, 2, 2, 2, 2, 2⟩ :=
  ⟨by decide,
    (candle_buffer_update default_config ⟨[(("A", "Min1"), [⟨5, 1, 1, 1, 1, 1⟩])], []⟩
        "A" "Min1" ⟨3, 2, 2, 2, 2, 2⟩ 0 (by decide)).1 (by decide),
    (candle_buffer_update default_config ⟨[(("A", "Min1"), [⟨5, 1, 1, 1, 1, 1⟩])], []⟩
        "A" "Min1" ⟨7, 2, 2, 2, 2, 2⟩ 0 (by decide)).2.2.1 (by decide)⟩

theorem is_in_cooldown_of_lookup (st : DetectorState) (S : String) (now T : ℚ)
    (h : st.recent_pumps.lookup S = some T)
    (ht : now < T + pump_cooldown_seconds) :
    is_in_cooldown st S now = true := by
  unfold is_in_cooldown
  rw [h]
  exact decide_eq_true_eq.mpr (by linarith)

theorem analyze_pump_realtime_rp (cfg : DetectorConfig) (st : DetectorState)
    (sym : String) (now : ℚ) (inc : Bool) :
    ((analyze_pump_realtime cfg st sym now inc).1.recent_pumps =
        st.recent_pumps ∧
      (analyze_pump_realtime cfg st sym now inc).2 = none) ∨
    (is_in_cooldown st sym now = false ∧
      ∃ sig, (analyze_pump_realtime cfg st sym now inc).2 = some sig ∧
        sig.symbol = sym ∧
        (analyze_pump_realtime cfg st sym now inc).1.recent_pumps =
          (sym, now) :: st.recent_pumps) := by
  unfold analyze_pump_realtime
  dsimp only
  split_ifs with h1 h2 h3 h4 h5 h6 h7 <;>
    first
      | exact Or.inl ⟨rfl, rfl⟩
      | exact Or.inr ⟨by simpa using h1, _, rfl, rfl, rfl⟩

theorem on_candle_update_rp (cfg : DetectorConfig) (st : DetectorState)
    (sym iv : String) (c : Candle) (now : ℚ) :
    ((on_candle_update cfg st sym iv c now).1.recent_pumps =
        st.recent_pumps ∧
      (on_candle_update cfg st sym iv c now).2 = none) ∨
    (is_in_cooldown st sym now = false ∧
      ∃ sig, (on_candle_update cfg st sym iv c now).2 = some sig ∧
        sig.symbol = sym ∧
        (on_candle_update cfg st sym iv c now).1.recent_pumps =
          (sym, now) :: st.recent_pumps) := by
  unfold on_candle_update
  dsimp only
  split_ifs with h1 h2 h3 h4 h5
  · exact Or.inl ⟨rfl, rfl⟩
  · rcases analyze_pump_realtime_rp cfg
      (histSet st sym iv (dequePush 100 (histOf st sym iv) c)) sym now true with
      ⟨ha, hb⟩ | ⟨hc, sig, hs1, hs2, hs3⟩
    · exact Or.inl ⟨ha, hb⟩
    · exact Or.inr ⟨hc, sig, hs1, hs2, hs3⟩
  · exact Or.inl ⟨rfl, rfl⟩
  · rcases analyze_pump_realtime_rp cfg
      (histSet st sym iv ((histOf st sym iv).dropLast ++ [c])) sym now false with
      ⟨ha, hb⟩ | ⟨hc, sig, hs1, hs2, hs3⟩
    · exact Or.inl ⟨ha, hb⟩
    · exact Or.inr ⟨hc, sig, hs1, hs2, hs3⟩
  · exact Or.inl ⟨rfl, rfl⟩
  · exact Or.inl ⟨rfl, rfl⟩

/-- C2: once a pump for symbol `S` is recorded at time `T`, processing any
sequence of candle ticks whose wall-clock times are all strictly before
`T + pump_cooldown_seconds` emits no pump signal for `S` (and the cooldown
record for `S` is left intact), even if qualifying conditions recur. -/
theorem cooldown_enforcement (cfg : DetectorConfig) (st : DetectorState)
    (S : String) (T : ℚ) (events : List TickEvent)
    (hrp : st.recent_pumps.lookup S = some T)
    (ht : ∀ e ∈ events, e.now < T + pump_cooldown_seconds) :
    (process_events cfg st events).1.recent_pumps.lookup S = some T ∧
    ∀ sig ∈ (process_events cfg st events).2, sig.symbol ≠ S := by
  induction events generalizing st with
  | nil => exact ⟨hrp, by simp [process_events]⟩
  | cons e rest ih =>
    have hstep := on_candle_update_rp cfg st e.symbol e.interval e.candle e.now
    rcases hstep with ⟨h1, h2⟩ | ⟨hcool, sig, hs1, hs2, hs3⟩
    · have hrp' : (on_candle_update cfg st e.symbol e.interval e.candle
          e.now).1.recent_pumps.lookup S = some T := by rw [h1]; exact hrp
      have hrest := ih (on_candle_update cfg st e.symbol e.interval e.candle e.now).1
        hrp' (fun e' he' => ht e' (List.mem_cons_of_mem _ he'))
      refine ⟨hrest.1, ?_⟩
      intro s hs
      simp only [process_events, h2, Option.toList_none, List.nil_append] at hs
      exact hrest.2 s hs
    · have hne : e.symbol ≠ S := by
        intro hEq
        rw [hEq] at hcool
        rw [is_in_cooldown_of_lookup st S e.now T hrp
          (ht e (List.mem_cons_self e rest))] at hcool
        cases hcool
      have hrp' : (on_candle_update cfg st e.symbol e.interval e.candle
          e.now).1.recent_pumps.lookup S = some T := by
        rw [hs3]
        have hb : (S == e.symbol) = false :=
          beq_eq_false_iff_ne.mpr (Ne.symm hne)
        simp [List.lookup, hb]
        exact hrp
      have hrest := ih (on_candle_update cfg st e.symbol e.interval e.candle e.now).1
        hrp' (fun e' he' => ht e' (List.mem_cons_of_mem _ he'))
      refine ⟨hrest.1, ?_⟩
      intro s hs
      simp only [process_events, hs1, Option.toList_some, List.cons_append,
        List.nil_append, List.mem_cons] at hs
      rcases hs with hs | hs
      · rw [hs, hs2]; exact hne
      · exact hrest.2 s hs

/-- Witness for C2: with a pump recorded for `"BTC"` at `T = 1000`, ticks at
times 1100 and 1500 (both before `T + 600`) emit nothing for `"BTC"`. -/
theorem cooldown_enforcement_witness :
    (DetectorState.recent_pumps ⟨[], [("BTC", 1000)]⟩).lookup "BTC" =
      some 1000 ∧
    (∀ e ∈ ([⟨"BTC", "Min1", ⟨5, 1, 1, 1, 1, 1⟩, 1100⟩,
        ⟨"ETH", "Min1", ⟨5, 1, 1, 1, 1, 1⟩, 1500⟩] : List TickEvent),
      e.now < 1000 + pump_cooldown_seconds) ∧
    ((process_events default_config ⟨[], [("BTC", 1000)]⟩
        [⟨"BTC", "Min1", ⟨5, 1, 1, 1, 1, 1⟩, 1100⟩,
          ⟨"ETH", "Min1", ⟨5, 1, 1, 1, 1, 1⟩, 1500⟩]).1.recent_pumps.lookup
        "BTC" = some 1000 ∧
      ∀ sig ∈ (process_events default_config ⟨[], [("BTC", 1000)]⟩
          [⟨"BTC", "Min1", ⟨5, 1, 1, 1, 1, 1⟩, 1100⟩,
            ⟨"ETH", "Min1", ⟨5, 1, 1, 1, 1, 1⟩, 1500⟩]).2,
        sig.symbol ≠ "BTC") :=
  ⟨rfl,
    by
      intro e he
      simp only [List.mem_cons, List.not_mem_nil, or_false] at he
      rcases he with rfl | rfl <;> norm_num [pump_cooldown_seconds],
    cooldown_enforcement default_config ⟨[], [("BTC", 1000)]⟩ "BTC" 1000
      [⟨"BTC", "Min1", ⟨5, 1, 1, 1, 1, 1⟩, 1100⟩,
        ⟨"ETH", "Min1", ⟨5, 1, 1, 1, 1, 1⟩, 1500⟩] rfl
      (by
        intro e he
        simp only [List.mem_cons, List.not_mem_nil, or_false] at he
        rcases he with rfl | rfl <;> norm_num [pump_cooldown_seconds])⟩
